import Mathlib

/-!
Verification development for the fintech-application ledger service
(`src/app.js`): an Express app with a JWT-protected in-memory account
store supporting create / deposit / withdraw / balance-read.

The embedding below models the JavaScript handler logic directly:
JavaScript numbers are modelled as exact rationals extended with the
special values `NaN`, `Infinity` and `-Infinity` (comparison and
arithmetic follow IEEE/ECMAScript rules for the special values; finite
arithmetic is exact, which is the idealization the spec itself uses).
Request bodies deliver already-parsed values, so an `amount` is an
arbitrary JavaScript value (number, string, or undefined).
-/

namespace FintechApp

/-- Model of a JavaScript number: `NaN`, `Infinity`, `-Infinity`, or a
finite value (exact rational). -/
inductive JSNum where
  | nan
  | inf
  | ninf
  | fin (q : ℚ)
deriving DecidableEq, Repr

/-- JavaScript `<` on numbers: any comparison involving `NaN` is false;
`Infinity` is above every other value and `-Infinity` below. -/
def jsLt : JSNum → JSNum → Bool
  | .nan, _ => false
  | _, .nan => false
  | .inf, _ => false
  | _, .inf => true
  | _, .ninf => false
  | .ninf, _ => true
  | .fin a, .fin b => decide (a < b)

/-- JavaScript `<=` on numbers: false when either side is `NaN`,
otherwise the negation of the reversed `<`. -/
def jsLe (a b : JSNum) : Bool :=
  match a, b with
  | .nan, _ => false
  | _, .nan => false
  | _, _ => ! jsLt b a

/-- JavaScript negation of a number. -/
def jsNeg : JSNum → JSNum
  | .nan => .nan
  | .inf => .ninf
  | .ninf => .inf
  | .fin q => .fin (-q)

/-- JavaScript `+` on numbers: `NaN` is absorbing, opposite infinities
give `NaN`, an infinity plus a finite value keeps the infinity, and
finite addition is exact. -/
def jsAdd : JSNum → JSNum → JSNum
  | .nan, _ => .nan
  | _, .nan => .nan
  | .inf, .ninf => .nan
  | .ninf, .inf => .nan
  | .inf, _ => .inf
  | _, .inf => .inf
  | .ninf, _ => .ninf
  | _, .ninf => .ninf
  | .fin a, .fin b => .fin (a + b)

/-- JavaScript `-` on numbers, as addition of the negation. -/
def jsSub (a b : JSNum) : JSNum :=
  jsAdd a (jsNeg b)

/-- A parsed JavaScript value as delivered to a handler by the JSON
transport: a number, a string, or `undefined` (field absent). -/
inductive JSVal where
  | num (n : JSNum)
  | str (s : String)
  | undef
deriving DecidableEq, Repr

/-- The handlers' amount validation, `typeof amount !== 'number' || amount <= 0`
(src/app.js lines 206 and 267): true exactly when the value is rejected.
The `||` short-circuits, so the comparison only runs on numbers. -/
def amountInvalid : JSVal → Bool
  | .num a => jsLe a (JSNum.fin 0)
  | _ => true

/-- The in-memory ledger state: `accounts` maps an account id to its
balance when the account exists (src/app.js line 124), and
`nextAccountId` is the id counter (line 125). -/
structure Ledger where
  accounts : ℕ → Option JSNum
  nextAccountId : ℕ

/-- The state at process start: no accounts, `nextAccountId = 1`. -/
def initLedger : Ledger :=
  { accounts := fun _ => none, nextAccountId := 1 }

/-- Outcome of a deposit or withdraw handler body. -/
inductive DWResult where
  | notFound
  | invalidAmount
  | insufficient
  | ok
deriving DecidableEq, Repr

/-- The `POST /accounts` handler body (src/app.js lines 148-153): store a
new account with balance 0 under `nextAccountId`, bump the counter, and
return the new id. -/
def createAccount (st : Ledger) : ℕ × Ledger :=
  (st.nextAccountId,
   { accounts := fun k =>
       if k = st.nextAccountId then some (JSNum.fin 0) else st.accounts k,
     nextAccountId := st.nextAccountId + 1 })

/-- The `POST /accounts/:id/deposit` handler body (src/app.js lines
199-214): 404 when the account is absent, 400 when
`typeof amount !== 'number' || amount <= 0`, otherwise
`accounts[accountId].balance += amount` and 200. -/
def deposit (st : Ledger) (accountId : ℕ) (amount : JSVal) : DWResult × Ledger :=
  match st.accounts accountId with
  | none => (.notFound, st)
  | some bal =>
    match amount with
    | .num a =>
      if jsLe a (JSNum.fin 0) then (.invalidAmount, st)
      else (.ok,
        { st with accounts := fun k =>
            if k = accountId then some (jsAdd bal a) else st.accounts k })
    | _ => (.invalidAmount, st)

/-- The `POST /accounts/:id/withdraw` handler body (src/app.js lines
260-278): 404 when absent, 400 when the amount fails the same check as
deposit, 400 insufficient funds when `accounts[accountId].balance < amount`,
otherwise `balance -= amount` and 200. -/
def withdraw (st : Ledger) (accountId : ℕ) (amount : JSVal) : DWResult × Ledger :=
  match st.accounts accountId with
  | none => (.notFound, st)
  | some bal =>
    match amount with
    | .num a =>
      if jsLe a (JSNum.fin 0) then (.invalidAmount, st)
      else if jsLt bal a then (.insufficient, st)
      else (.ok,
        { st with accounts := fun k =>
            if k = accountId then some (jsSub bal a) else st.accounts k })
    | _ => (.invalidAmount, st)

/-- The `GET /accounts/:id/balance` handler body (src/app.js lines
310-317): the current balance when the account exists, `none` (the 404
path) otherwise; it performs no mutation. -/
def getBalance (st : Ledger) (accountId : ℕ) : Option JSNum :=
  st.accounts accountId

/-- The hardcoded admin username (src/app.js line 34). -/
def adminUsername : String := "admin"

/-- The hardcoded admin password (src/app.js line 35). -/
def adminPassword : String := "admin"

/-- The JWT signing secret (src/app.js line 36). -/
def jwtSecret : String := "56025E0C0FA4CBC84F060DAD39D8116B7B3161FC"

/-- The token validity window, `tokenExpiry = "1h"` (src/app.js line 37),
in seconds. -/
def tokenExpirySeconds : ℕ := 3600

/-- The claims carried by a JWT: the payload `{ username, role }` signed
at src/app.js line 78, plus the expiry timestamp the library adds for
`expiresIn`. -/
structure Payload where
  username : String
  role : String
  exp : ℕ
deriving DecidableEq, Repr

/-- Modelled from the spec: the `jsonwebtoken` library is an external
collaborator, so a token is modelled abstractly as a signed blob. A
`signed` token carries the payload it presents, the payload that was
actually signed, and the secret used to sign; the carried and signed
payloads differ exactly when the token was tampered with after signing.
An `unsigned` token has no signature at all. -/
inductive Token where
  | signed (payload : Payload) (sigPayload : Payload) (sigSecret : String)
  | unsigned (payload : Payload)
deriving DecidableEq, Repr

/-- Modelled from the spec: `jwt.sign(payload, secret)` produces a token
whose carried and signed payloads coincide. -/
def jwtSign (p : Payload) (secret : String) : Token :=
  .signed p p secret

/-- Modelled from the spec: `jwt.verify(token, secret)` at time `now`
succeeds with the decoded payload exactly when the token is signed with
the matching secret, untampered, and not yet expired; verification is
all-or-nothing. -/
def jwtVerify (token : Token) (secret : String) (now : ℕ) : Option Payload :=
  match token with
  | .signed p sp ss =>
    if ss = secret ∧ sp = p ∧ now < p.exp then some p else none
  | .unsigned _ => none

/-- The `POST /login` handler (src/app.js lines 72-83): on the hardcoded
admin credentials it signs `{ username, role: 'admin' }` with the secret
and a 1-hour expiry; otherwise 401 (`none`). -/
def login (username password : String) (now : ℕ) : Option Token :=
  if username = adminUsername ∧ password = adminPassword then
    some (jwtSign ⟨username, "admin", now + tokenExpirySeconds⟩ jwtSecret)
  else
    none

/-- Outcome of the `verifyToken` middleware. -/
inductive AuthResult where
  | missingCredential
  | invalidCredential
  | admitted (decoded : Payload)
deriving DecidableEq, Repr

/-- The `verifyToken` middleware (src/app.js lines 97-114). The input is
the authorization header: `none` when the header is absent; otherwise the
token portion extracted by `bearerHeader.split(' ')[1]`, which is itself
`none` when the header has no second space-separated field (in which case
`jwt.verify(undefined, ...)` errors). Header absent gives 403
"No token provided"; a failed verification gives 403
"Token is not valid"; success attaches the decoded payload (`req.admin`)
and calls `next()`. -/
def verifyToken (bearerHeader : Option (Option Token)) (now : ℕ) : AuthResult :=
  match bearerHeader with
  | none => .missingCredential
  | some tokenPortion =>
    match tokenPortion with
    | none => .invalidCredential
    | some t =>
      match jwtVerify t jwtSecret now with
      | none => .invalidCredential
      | some decoded => .admitted decoded

/-- A full endpoint response, combining the gate's 403 outcomes with the
handler bodies' outcomes. -/
inductive HResp where
  | authMissing
  | authInvalid
  | created (accountId : ℕ)
  | txOk
  | balanceOk (balance : JSNum)
  | accountNotFound
  | invalidAmount
  | insufficientFunds
deriving DecidableEq, Repr

/-- Mapping of a deposit/withdraw body outcome into a response. -/
def dwResp : DWResult → HResp
  | .notFound => .accountNotFound
  | .invalidAmount => .invalidAmount
  | .insufficient => .insufficientFunds
  | .ok => .txOk

/-- `POST /accounts` as routed (src/app.js line 148): `verifyToken`
first, then the create body. -/
def handleCreate (hdr : Option (Option Token)) (now : ℕ) (st : Ledger) :
    HResp × Ledger :=
  match verifyToken hdr now with
  | .missingCredential => (.authMissing, st)
  | .invalidCredential => (.authInvalid, st)
  | .admitted _ =>
    let r := createAccount st
    (.created r.1, r.2)

/-- `POST /accounts/:id/deposit` as routed (src/app.js line 199):
`verifyToken` first, then the deposit body. -/
def handleDeposit (hdr : Option (Option Token)) (now : ℕ) (st : Ledger)
    (accountId : ℕ) (amount : JSVal) : HResp × Ledger :=
  match verifyToken hdr now with
  | .missingCredential => (.authMissing, st)
  | .invalidCredential => (.authInvalid, st)
  | .admitted _ =>
    let r := deposit st accountId amount
    (dwResp r.1, r.2)

/-- `POST /accounts/:id/withdraw` as routed (src/app.js line 260):
`verifyToken` first, then the withdraw body. -/
def handleWithdraw (hdr : Option (Option Token)) (now : ℕ) (st : Ledger)
    (accountId : ℕ) (amount : JSVal) : HResp × Ledger :=
  match verifyToken hdr now with
  | .missingCredential => (.authMissing, st)
  | .invalidCredential => (.authInvalid, st)
  | .admitted _ =>
    let r := withdraw st accountId amount
    (dwResp r.1, r.2)

/-- `GET /accounts/:id/balance` as routed (src/app.js line 310):
`verifyToken` first, then the balance read; no mutation. -/
def handleGetBalance (hdr : Option (Option Token)) (now : ℕ) (st : Ledger)
    (accountId : ℕ) : HResp × Ledger :=
  match verifyToken hdr now with
  | .missingCredential => (.authMissing, st)
  | .invalidCredential => (.authInvalid, st)
  | .admitted _ =>
    match getBalance st accountId with
    | none => (.accountNotFound, st)
    | some b => (.balanceOk b, st)

/-- The payload of a token obtained from `POST /login` at time 0. -/
def pAdmin : Payload :=
  ⟨"admin", "admin", tokenExpirySeconds⟩

/-- A token issued by `POST /login` with the admin credentials at time 0. -/
def tokenAdmin : Token :=
  jwtSign pAdmin jwtSecret

/-- An authorization header carrying `tokenAdmin`. -/
def hdrAdmin : Option (Option Token) :=
  some (some tokenAdmin)

/-- The state after one `createAccount` from the initial state: account 1
with balance 0, next id 2. -/
def oneAccountLedger : Ledger :=
  (createAccount initLedger).2

/-- Claim C1 (evaluation at the failing input): the amount check accepts
`NaN` (`typeof NaN === 'number'` and `NaN <= 0` is false), so depositing
`NaN` into a fresh account succeeds and sets the balance to `NaN`, and
`NaN >= 0` is false — the non-negative-balance invariant is broken by a
one-call sequence. -/
theorem nan_deposit_breaks_nonneg_invariant :
    (deposit oneAccountLedger 1 (JSVal.num JSNum.nan)).1 = DWResult.ok
    ∧ (deposit oneAccountLedger 1 (JSVal.num JSNum.nan)).2.accounts 1
        = some JSNum.nan
    ∧ jsLe (JSNum.fin 0) JSNum.nan = false := by
  refine ⟨by decide, by decide, by decide⟩

/-- Claim C2 (evaluation at the spec's own inputs, on an account with
balance 0): amounts `0`, `-5` and `"abc"` are rejected as invalid by both
deposit and withdraw, but `NaN` is accepted by both (the balance becomes
`NaN`), `Infinity` is accepted by deposit, and `Infinity` on withdraw
fails as insufficient funds rather than as an invalid amount — so the
validation does not reject exactly the non-positive-finite amounts. -/
theorem amount_validation_at_spec_inputs :
    (deposit oneAccountLedger 1 (JSVal.num (JSNum.fin 0))).1 = DWResult.invalidAmount
    ∧ (deposit oneAccountLedger 1 (JSVal.num (JSNum.fin (-5)))).1 = DWResult.invalidAmount
    ∧ (deposit oneAccountLedger 1 (JSVal.str "abc")).1 = DWResult.invalidAmount
    ∧ (deposit oneAccountLedger 1 (JSVal.num JSNum.nan)).1 = DWResult.ok
    ∧ (deposit oneAccountLedger 1 (JSVal.num JSNum.inf)).1 = DWResult.ok
    ∧ (withdraw oneAccountLedger 1 (JSVal.num (JSNum.fin 0))).1 = DWResult.invalidAmount
    ∧ (withdraw oneAccountLedger 1 (JSVal.num (JSNum.fin (-5)))).1 = DWResult.invalidAmount
    ∧ (withdraw oneAccountLedger 1 (JSVal.str "abc")).1 = DWResult.invalidAmount
    ∧ (withdraw oneAccountLedger 1 (JSVal.num JSNum.nan)).1 = DWResult.ok
    ∧ (withdraw oneAccountLedger 1 (JSVal.num JSNum.inf)).1 = DWResult.insufficient := by
  refine ⟨by decide, by decide, by decide, by decide, by decide,
    by decide, by decide, by decide, by decide, by decide⟩

/-- Claim C3: for an existing account and a positive finite amount,
withdraw fails with insufficient funds exactly when the balance is below
the amount, and on that failure the state (hence the balance) is
unchanged. -/
theorem withdraw_insufficient_funds_iff (st : Ledger) (accountId : ℕ)
    (bal : JSNum) (a : ℚ)
    (hacct : st.accounts accountId = some bal) (hpos : 0 < a) :
    ((withdraw st accountId (JSVal.num (JSNum.fin a))).1 = DWResult.insufficient
      ↔ jsLt bal (JSNum.fin a) = true)
    ∧ (jsLt bal (JSNum.fin a) = true →
        (withdraw st accountId (JSVal.num (JSNum.fin a))).2 = st) := by
  have hle : jsLe (JSNum.fin a) (JSNum.fin 0) = false := by
    simp [jsLe, jsLt, hpos, le_of_lt]
  cases h : jsLt bal (JSNum.fin a) <;>
    simp [withdraw, hacct, hle, h]

/-- Claim C3 witness: on the one-account state (balance 0), withdrawing 7
fails with insufficient funds and leaves the state unchanged. -/
theorem withdraw_insufficient_funds_iff_witness :
    ((withdraw oneAccountLedger 1 (JSVal.num (JSNum.fin 7))).1 = DWResult.insufficient
      ↔ jsLt (JSNum.fin 0) (JSNum.fin 7) = true)
    ∧ (jsLt (JSNum.fin 0) (JSNum.fin 7) = true →
        (withdraw oneAccountLedger 1 (JSVal.num (JSNum.fin 7))).2 = oneAccountLedger) :=
  withdraw_insufficient_funds_iff oneAccountLedger 1 (JSNum.fin 0) 7
    (by decide) (by norm_num)

/-- Claim C4: for an existing account with finite balance `b` and a
positive finite amount `a`, deposit succeeds and the new balance is
exactly `b + a`; and depositing 100 into a freshly created account and
then reading its balance yields exactly 100. -/
theorem deposit_adds_exact_amount (st : Ledger) (accountId : ℕ) (b a : ℚ)
    (hacct : st.accounts accountId = some (JSNum.fin b)) (hpos : 0 < a) :
    ((deposit st accountId (JSVal.num (JSNum.fin a))).1 = DWResult.ok
      ∧ (deposit st accountId (JSVal.num (JSNum.fin a))).2.accounts accountId
          = some (JSNum.fin (b + a)))
    ∧ getBalance
        (deposit (createAccount st).2 (createAccount st).1
          (JSVal.num (JSNum.fin 100))).2
        (createAccount st).1 = some (JSNum.fin 100) := by
  have hle : ∀ c : ℚ, 0 < c → jsLe (JSNum.fin c) (JSNum.fin 0) = false := by
    intro c hc
    simp [jsLe, jsLt, hc, le_of_lt]
  refine ⟨⟨?_, ?_⟩, ?_⟩
  · simp [deposit, hacct, hle a hpos]
  · simp [deposit, hacct, hle a hpos, jsAdd]
  · simp [deposit, createAccount, getBalance, hle (100 : ℚ) (by norm_num), jsAdd]

/-- Claim C4 witness: on the one-account state (balance 0), depositing 100
succeeds and the balance becomes exactly 100; the fresh-account scenario
holds starting from the initial state. -/
theorem deposit_adds_exact_amount_witness :
    ((deposit oneAccountLedger 1 (JSVal.num (JSNum.fin 100))).1 = DWResult.ok
      ∧ (deposit oneAccountLedger 1 (JSVal.num (JSNum.fin 100))).2.accounts 1
          = some (JSNum.fin (0 + 100)))
    ∧ getBalance
        (deposit (createAccount oneAccountLedger).2 (createAccount oneAccountLedger).1
          (JSVal.num (JSNum.fin 100))).2
        (createAccount oneAccountLedger).1 = some (JSNum.fin 100) :=
  deposit_adds_exact_amount oneAccountLedger 1 0 100 (by decide) (by norm_num)

/-- Claim C5: the gate fails with the missing-credential outcome exactly
when no authorization header is present; with a bearer token present it
delegates to verification, fails with the invalid-credential outcome
exactly when verification fails, and on success attaches the decoded
payload and admits the call. -/
theorem verifyToken_gate_spec (now : ℕ) :
    verifyToken none now = AuthResult.missingCredential
    ∧ ∀ t : Token,
        (verifyToken (some (some t)) now = AuthResult.invalidCredential
          ↔ jwtVerify t jwtSecret now = none)
        ∧ ∀ p : Payload, jwtVerify t jwtSecret now = some p →
            verifyToken (some (some t)) now = AuthResult.admitted p := by
  refine ⟨rfl, fun t => ⟨?_, ?_⟩⟩
  · cases h : jwtVerify t jwtSecret now <;> simp [verifyToken, h]
  · intro p hp
    simp [verifyToken, hp]

/-- Claim C5 witness: the admin token issued at time 0 is verified and
admitted with its decoded payload attached. -/
theorem verifyToken_gate_spec_witness :
    verifyToken (some (some tokenAdmin)) 0 = AuthResult.admitted pAdmin :=
  ((verifyToken_gate_spec 0).2 tokenAdmin).2 pAdmin (by decide)

/-- Claim C6: past an admitted gate, deposit, withdraw and balance-read
on an account id absent from the store each fail with the
account-not-found outcome. -/
theorem missing_account_not_found (hdr : Option (Option Token)) (now : ℕ)
    (p : Payload) (st : Ledger) (accountId : ℕ) (amount : JSVal)
    (hauth : verifyToken hdr now = AuthResult.admitted p)
    (habs : st.accounts accountId = none) :
    handleDeposit hdr now st accountId amount = (HResp.accountNotFound, st)
    ∧ handleWithdraw hdr now st accountId amount = (HResp.accountNotFound, st)
    ∧ handleGetBalance hdr now st accountId = (HResp.accountNotFound, st) := by
  refine ⟨?_, ?_, ?_⟩ <;>
    simp [handleDeposit, handleWithdraw, handleGetBalance, hauth,
      deposit, withdraw, getBalance, dwResp, habs]

/-- Claim C6 witness: with the admin token, account 1 in the empty
initial state is reported not found by all three operations. -/
theorem missing_account_not_found_witness :
    handleDeposit hdrAdmin 0 initLedger 1 (JSVal.num (JSNum.fin 5))
        = (HResp.accountNotFound, initLedger)
    ∧ handleWithdraw hdrAdmin 0 initLedger 1 (JSVal.num (JSNum.fin 5))
        = (HResp.accountNotFound, initLedger)
    ∧ handleGetBalance hdrAdmin 0 initLedger 1
        = (HResp.accountNotFound, initLedger) :=
  missing_account_not_found hdrAdmin 0 pAdmin initLedger 1
    (JSVal.num (JSNum.fin 5)) (by decide) rfl

/-- Claim C7: past an admitted gate, account creation always succeeds:
it returns the current next id, stores a new account with balance 0 under
that id, bumps the counter by one (so consecutive calls return
consecutive ids), and the id counter starts at 1. -/
theorem createAccount_always_succeeds (hdr : Option (Option Token)) (now : ℕ)
    (p : Payload) (st : Ledger)
    (hauth : verifyToken hdr now = AuthResult.admitted p) :
    handleCreate hdr now st
        = (HResp.created st.nextAccountId, (createAccount st).2)
    ∧ (createAccount st).1 = st.nextAccountId
    ∧ (createAccount st).2.accounts st.nextAccountId = some (JSNum.fin 0)
    ∧ (createAccount st).2.nextAccountId = st.nextAccountId + 1
    ∧ (createAccount (createAccount st).2).1 = (createAccount st).1 + 1
    ∧ initLedger.nextAccountId = 1 := by
  refine ⟨?_, ?_, ?_, ?_, ?_, ?_⟩
  · simp [handleCreate, hauth, createAccount]
  · simp [createAccount]
  · simp [createAccount]
  · simp [createAccount]
  · simp [createAccount]
  · simp [initLedger]

/-- Claim C7 witness: with the admin token on the initial state, creation
returns id 1, stores balance 0 there, and the next call would get id 2. -/
theorem createAccount_always_succeeds_witness :
    handleCreate hdrAdmin 0 initLedger
        = (HResp.created initLedger.nextAccountId, (createAccount initLedger).2)
    ∧ (createAccount initLedger).1 = initLedger.nextAccountId
    ∧ (createAccount initLedger).2.accounts initLedger.nextAccountId
        = some (JSNum.fin 0)
    ∧ (createAccount initLedger).2.nextAccountId = initLedger.nextAccountId + 1
    ∧ (createAccount (createAccount initLedger).2).1
        = (createAccount initLedger).1 + 1
    ∧ initLedger.nextAccountId = 1 :=
  createAccount_always_succeeds hdrAdmin 0 pAdmin initLedger (by decide)

/-- A deposit/withdraw body outcome is never one of the gate's 403
outcomes. -/
theorem dwResp_ne_auth (r : DWResult) :
    dwResp r ≠ HResp.authMissing ∧ dwResp r ≠ HResp.authInvalid := by
  cases r <;> simp [dwResp]

/-- Claim C8: a token issued by login with the correct credentials is
accepted (never rejected by the gate) by all four protected operations
while the current time is before its expiry; and any token failing
verification — in particular an unsigned one, one whose signature was
made with a different secret or over a different payload (tampered), or
an expired one — is rejected by all four operations with the same
invalid-credential outcome. -/
theorem issued_token_lifecycle (t0 now : ℕ) (tok : Token)
    (hlogin : login adminUsername adminPassword t0 = some tok)
    (hvalid : now < t0 + tokenExpirySeconds) :
    (∀ (st : Ledger) (accountId : ℕ) (amount : JSVal),
      (handleCreate (some (some tok)) now st).1 ≠ HResp.authMissing
      ∧ (handleCreate (some (some tok)) now st).1 ≠ HResp.authInvalid
      ∧ (handleDeposit (some (some tok)) now st accountId amount).1
          ≠ HResp.authMissing
      ∧ (handleDeposit (some (some tok)) now st accountId amount).1
          ≠ HResp.authInvalid
      ∧ (handleWithdraw (some (some tok)) now st accountId amount).1
          ≠ HResp.authMissing
      ∧ (handleWithdraw (some (some tok)) now st accountId amount).1
          ≠ HResp.authInvalid
      ∧ (handleGetBalance (some (some tok)) now st accountId).1
          ≠ HResp.authMissing
      ∧ (handleGetBalance (some (some tok)) now st accountId).1
          ≠ HResp.authInvalid)
    ∧ (∀ bad : Token, jwtVerify bad jwtSecret now = none →
        ∀ (st : Ledger) (accountId : ℕ) (amount : JSVal),
          handleCreate (some (some bad)) now st = (HResp.authInvalid, st)
          ∧ handleDeposit (some (some bad)) now st accountId amount
              = (HResp.authInvalid, st)
          ∧ handleWithdraw (some (some bad)) now st accountId amount
              = (HResp.authInvalid, st)
          ∧ handleGetBalance (some (some bad)) now st accountId
              = (HResp.authInvalid, st))
    ∧ (∀ p : Payload, jwtVerify (Token.unsigned p) jwtSecret now = none)
    ∧ (∀ (p sp : Payload) (ss : String), ss ≠ jwtSecret ∨ sp ≠ p →
        jwtVerify (Token.signed p sp ss) jwtSecret now = none)
    ∧ (∀ p : Payload, p.exp ≤ now →
        jwtVerify (Token.signed p p jwtSecret) jwtSecret now = none) := by
  have htok :
      tok = jwtSign ⟨adminUsername, "admin", t0 + tokenExpirySeconds⟩ jwtSecret := by
    have h := hlogin
    simp [login] at h
    exact h.symm
  subst htok
  have hadm :
      verifyToken
        (some (some (jwtSign ⟨adminUsername, "admin", t0 + tokenExpirySeconds⟩
          jwtSecret))) now
      = AuthResult.admitted ⟨adminUsername, "admin", t0 + tokenExpirySeconds⟩ := by
    simp [verifyToken, jwtVerify, jwtSign, hvalid]
  refine ⟨?_, ?_, ?_, ?_, ?_⟩
  · intro st accountId amount
    refine ⟨?_, ?_, ?_, ?_, ?_, ?_, ?_, ?_⟩
    · simp [handleCreate, hadm]
    · simp [handleCreate, hadm]
    · simp only [handleDeposit, hadm]
      exact (dwResp_ne_auth _).1
    · simp only [handleDeposit, hadm]
      exact (dwResp_ne_auth _).2
    · simp only [handleWithdraw, hadm]
      exact (dwResp_ne_auth _).1
    · simp only [handleWithdraw, hadm]
      exact (dwResp_ne_auth _).2
    · simp only [handleGetBalance, hadm]
      cases hgb : getBalance st accountId <;> simp [hgb]
    · simp only [handleGetBalance, hadm]
      cases hgb : getBalance st accountId <;> simp [hgb]
  · intro bad hbad st accountId amount
    have hinv : verifyToken (some (some bad)) now
        = AuthResult.invalidCredential := by
      simp [verifyToken, hbad]
    exact ⟨by simp [handleCreate, hinv], by simp [handleDeposit, hinv],
      by simp [handleWithdraw, hinv], by simp [handleGetBalance, hinv]⟩
  · intro p
    rfl
  · intro p sp ss h
    rcases h with h | h <;> simp [jwtVerify, h]
  · intro p h
    have hn : ¬ now < p.exp := Nat.not_lt.mpr h
    simp [jwtVerify, hn]

/-- Claim C8 witness: the token issued at time 0 is not rejected by the
deposit endpoint at time 0, while an unsigned token with the same payload
is rejected by it with the invalid-credential outcome. -/
theorem issued_token_lifecycle_witness :
    (handleDeposit (some (some tokenAdmin)) 0 oneAccountLedger 1
        (JSVal.num (JSNum.fin 5))).1 ≠ HResp.authInvalid
    ∧ handleDeposit (some (some (Token.unsigned pAdmin))) 0 oneAccountLedger 1
        (JSVal.num (JSNum.fin 5)) = (HResp.authInvalid, oneAccountLedger) :=
  ⟨((issued_token_lifecycle 0 0 tokenAdmin (by decide) (by decide)).1
      oneAccountLedger 1 (JSVal.num (JSNum.fin 5))).2.2.2.1,
   ((issued_token_lifecycle 0 0 tokenAdmin (by decide) (by decide)).2.1
      (Token.unsigned pAdmin) rfl oneAccountLedger 1
      (JSVal.num (JSNum.fin 5))).2.1⟩

/-- A deposit that does not succeed returns the state unchanged: every
error path of the handler body returns before the mutation. -/
theorem deposit_error_frame (st : Ledger) (accountId : ℕ) (amount : JSVal)
    (h : (deposit st accountId amount).1 ≠ DWResult.ok) :
    (deposit st accountId amount).2 = st := by
  cases hacc : st.accounts accountId with
  | none => simp [deposit, hacc]
  | some bal =>
    cases amount with
    | num a =>
      cases hle : jsLe a (JSNum.fin 0) with
      | true => simp [deposit, hacc, hle]
      | false => exact absurd (by simp [deposit, hacc, hle]) h
    | str s => simp [deposit, hacc]
    | undef => simp [deposit, hacc]

/-- A withdraw that does not succeed returns the state unchanged. -/
theorem withdraw_error_frame (st : Ledger) (accountId : ℕ) (amount : JSVal)
    (h : (withdraw st accountId amount).1 ≠ DWResult.ok) :
    (withdraw st accountId amount).2 = st := by
  cases hacc : st.accounts accountId with
  | none => simp [withdraw, hacc]
  | some bal =>
    cases amount with
    | num a =>
      cases hle : jsLe a (JSNum.fin 0) with
      | true => simp [withdraw, hacc, hle]
      | false =>
        cases hlt : jsLt bal a with
        | true => simp [withdraw, hacc, hle, hlt]
        | false => exact absurd (by simp [withdraw, hacc, hle, hlt]) h
    | str s => simp [withdraw, hacc]
    | undef => simp [withdraw, hacc]

/-- Claim C9: whenever deposit or withdraw fails with account-not-found,
invalid-amount, or insufficient-funds, the whole ledger state — every
balance, the set of account ids, and the next-id counter — is unchanged. -/
theorem failed_mutation_preserves_state (st : Ledger) (accountId : ℕ)
    (amount : JSVal) :
    (((deposit st accountId amount).1 = DWResult.notFound
        ∨ (deposit st accountId amount).1 = DWResult.invalidAmount
        ∨ (deposit st accountId amount).1 = DWResult.insufficient) →
      (deposit st accountId amount).2 = st)
    ∧ (((withdraw st accountId amount).1 = DWResult.notFound
        ∨ (withdraw st accountId amount).1 = DWResult.invalidAmount
        ∨ (withdraw st accountId amount).1 = DWResult.insufficient) →
      (withdraw st accountId amount).2 = st) := by
  constructor
  · intro h
    apply deposit_error_frame
    rcases h with h | h | h <;> simp [h]
  · intro h
    apply withdraw_error_frame
    rcases h with h | h | h <;> simp [h]

/-- Claim C9 witness: depositing into or withdrawing from the absent
account 1 of the initial state fails and leaves the state equal to the
initial state. -/
theorem failed_mutation_preserves_state_witness :
    (deposit initLedger 1 (JSVal.num (JSNum.fin 5))).2 = initLedger
    ∧ (withdraw initLedger 1 (JSVal.num (JSNum.fin 5))).2 = initLedger :=
  ⟨(failed_mutation_preserves_state initLedger 1 (JSVal.num (JSNum.fin 5))).1
      (Or.inl (by decide)),
   (failed_mutation_preserves_state initLedger 1 (JSVal.num (JSNum.fin 5))).2
      (Or.inl (by decide))⟩

/-- A successful deposit only rewrites the target account's balance:
other keys, key occupancy, and the id counter are untouched. -/
theorem deposit_ok_frame (st : Ledger) (accountId : ℕ) (amount : JSVal)
    (h : (deposit st accountId amount).1 = DWResult.ok) :
    (∀ k : ℕ, k ≠ accountId →
      (deposit st accountId amount).2.accounts k = st.accounts k)
    ∧ (∀ k : ℕ, ((deposit st accountId amount).2.accounts k).isSome
        = (st.accounts k).isSome)
    ∧ (deposit st accountId amount).2.nextAccountId = st.nextAccountId := by
  cases hacc : st.accounts accountId with
  | none => simp [deposit, hacc] at h
  | some bal =>
    cases amount with
    | num a =>
      cases hle : jsLe a (JSNum.fin 0) with
      | true => simp [deposit, hacc, hle] at h
      | false =>
        refine ⟨?_, ?_, ?_⟩
        · intro k hk
          simp [deposit, hacc, hle, hk]
        · intro k
          by_cases hk : k = accountId
          · subst hk
            simp [deposit, hacc, hle]
          · simp [deposit, hacc, hle, hk]
        · simp [deposit, hacc, hle]
    | str s => simp [deposit, hacc] at h
    | undef => simp [deposit, hacc] at h

/-- A successful withdraw only rewrites the target account's balance. -/
theorem withdraw_ok_frame (st : Ledger) (accountId : ℕ) (amount : JSVal)
    (h : (withdraw st accountId amount).1 = DWResult.ok) :
    (∀ k : ℕ, k ≠ accountId →
      (withdraw st accountId amount).2.accounts k = st.accounts k)
    ∧ (∀ k : ℕ, ((withdraw st accountId amount).2.accounts k).isSome
        = (st.accounts k).isSome)
    ∧ (withdraw st accountId amount).2.nextAccountId = st.nextAccountId := by
  cases hacc : st.accounts accountId with
  | none => simp [withdraw, hacc] at h
  | some bal =>
    cases amount with
    | num a =>
      cases hle : jsLe a (JSNum.fin 0) with
      | true => simp [withdraw, hacc, hle] at h
      | false =>
        cases hlt : jsLt bal a with
        | true => simp [withdraw, hacc, hle, hlt] at h
        | false =>
          refine ⟨?_, ?_, ?_⟩
          · intro k hk
            simp [withdraw, hacc, hle, hlt, hk]
          · intro k
            by_cases hk : k = accountId
            · subst hk
              simp [withdraw, hacc, hle, hlt]
            · simp [withdraw, hacc, hle, hlt, hk]
          · simp [withdraw, hacc, hle, hlt]
    | str s => simp [withdraw, hacc] at h
    | undef => simp [withdraw, hacc] at h

/-- Claim C10: a successful deposit or withdraw on an account id leaves
every other account's balance, the set of account ids, and the next-id
counter unchanged; a balance read never changes the state at all. -/
theorem successful_mutation_frame (st : Ledger) (accountId : ℕ)
    (amount : JSVal) :
    ((deposit st accountId amount).1 = DWResult.ok →
      (∀ k : ℕ, k ≠ accountId →
        (deposit st accountId amount).2.accounts k = st.accounts k)
      ∧ (∀ k : ℕ, ((deposit st accountId amount).2.accounts k).isSome
          = (st.accounts k).isSome)
      ∧ (deposit st accountId amount).2.nextAccountId = st.nextAccountId)
    ∧ ((withdraw st accountId amount).1 = DWResult.ok →
      (∀ k : ℕ, k ≠ accountId →
        (withdraw st accountId amount).2.accounts k = st.accounts k)
      ∧ (∀ k : ℕ, ((withdraw st accountId amount).2.accounts k).isSome
          = (st.accounts k).isSome)
      ∧ (withdraw st accountId amount).2.nextAccountId = st.nextAccountId)
    ∧ (∀ (hdr : Option (Option Token)) (now : ℕ),
        (handleGetBalance hdr now st accountId).2 = st) := by
  refine ⟨deposit_ok_frame st accountId amount,
    withdraw_ok_frame st accountId amount, ?_⟩
  intro hdr now
  cases hv : verifyToken hdr now with
  | missingCredential => simp [handleGetBalance, hv]
  | invalidCredential => simp [handleGetBalance, hv]
  | admitted p =>
    cases hgb : getBalance st accountId <;> simp [handleGetBalance, hv, hgb]

/-- Claim C10 witness: a successful deposit of 5 into account 1 of the
one-account state leaves the (absent) account 2, and the id counter,
untouched; a successful withdraw leaves the counter untouched; a balance
read with the admin token changes nothing. -/
theorem successful_mutation_frame_witness :
    (deposit oneAccountLedger 1 (JSVal.num (JSNum.fin 5))).2.accounts 2
        = oneAccountLedger.accounts 2
    ∧ (deposit oneAccountLedger 1 (JSVal.num (JSNum.fin 5))).2.nextAccountId
        = oneAccountLedger.nextAccountId
    ∧ (withdraw oneAccountLedger 1 (JSVal.num JSNum.nan)).2.nextAccountId
        = oneAccountLedger.nextAccountId
    ∧ (handleGetBalance hdrAdmin 0 oneAccountLedger 1).2 = oneAccountLedger :=
  ⟨((successful_mutation_frame oneAccountLedger 1
      (JSVal.num (JSNum.fin 5))).1 (by decide)).1 2 (by decide),
   ((successful_mutation_frame oneAccountLedger 1
      (JSVal.num (JSNum.fin 5))).1 (by decide)).2.2,
   ((successful_mutation_frame oneAccountLedger 1
      (JSVal.num JSNum.nan)).2.1 (by decide)).2.2,
   (successful_mutation_frame oneAccountLedger 1
      (JSVal.num (JSNum.fin 5))).2.2 hdrAdmin 0⟩

end FintechApp
